import Mathlib

/-!
Verification of the Node request-listener adapter (`src/use/node.ts`) of
graphql-http.  The adapter wraps a protocol handler
`handle : request → Promise<[body, init]>` into a Node
`(req, res) → Promise<void>` listener.

Shallow embedding conventions:
* JS strings are `String`; a possibly-missing string field is `Option String`;
  JS truthiness of such a field (`!req.url`) is `truthy`.
* The inbound body stream is a list of `StreamEvent`s; subscribing with
  `req.on('data', …)`/`req.on('end', …)` is `drainFrom`, and the events left
  for a later subscriber are `afterInvoke` (a resolved subscription consumed
  everything up to and including the first end event).
* A caught JS exception is a `Fault`: either an `instanceof Error` value
  (message and optional stack) or any other value, carried by its JSON
  serialization as it would appear inside the serialized errors array.
* The outgoing response object supports one `writeHead(...).end(...)` call,
  recorded as a `WrittenResponse`; one listener invocation is recorded as the
  list of its observable effects (`console.error` emissions and response
  writes), in order.
* The runtime-generated stack texts of the two `new Error(...)` values thrown
  on missing fields are parameters `urlStack`, `methodStack`.
* `process.env` at a point in time is a function `Env`; `createHandler` reads
  it at construction time, and the returned listener additionally receives the
  (ignored, since the source listener never reads it) environment at call time
  so that statements about later environment changes can be expressed.
-/

namespace GraphqlHttpNode

/-- An event on the inbound request body stream: a data chunk or the end
signal. -/
inductive StreamEvent where
  | chunk (s : String)
  | endEv
deriving DecidableEq, Repr

/-- A caught JS exception: `err instanceof Error` carries `message` and the
(possibly undefined) `stack`; any other thrown value is carried by its JSON
serialization as it appears inside a serialized array. -/
inductive Fault where
  | jsError (message : String) (stack : Option String)
  | jsValue (serialized : String)
deriving DecidableEq, Repr

/-- The `init` part of the handler result: `\x7b status, statusText?, headers? \x7d`. -/
structure ResponseInit where
  status : Nat
  statusText : Option String
  headers : Option (List (String × String))
deriving DecidableEq, Repr

/-- The single `res.writeHead(status, statusText?, headers?).end(body?)` call
performed on the outgoing response. -/
structure WrittenResponse where
  status : Nat
  statusText : Option String
  headers : Option (List (String × String))
  body : Option String
deriving DecidableEq, Repr

/-- The inbound Node `IncomingMessage`: `url` and `method` may be absent,
`headers` is the header mapping, `bodyEvents` the body stream. -/
structure Req where
  url : Option String
  method : Option String
  headers : List (String × String)
  bodyEvents : List StreamEvent
deriving DecidableEq, Repr

/-- The normalized request descriptor built by the listener and passed to the
protocol handler (the object literal at `src/use/node.ts` lines 38–50).  The
`body` accessor is represented by the stream it would subscribe to
(`bodyEvents`); `context` is the possibly-undefined caller context. -/
structure NormReq (Ctx : Type) where
  url : String
  method : String
  headers : List (String × String)
  bodyEvents : List StreamEvent
  raw : Req
  context : Option Ctx

/-- The external protocol handler: resolves with `(body, init)` or
throws/rejects with a fault. -/
def HandlerFn (Ctx : Type) : Type :=
  NormReq Ctx → Except Fault (String × ResponseInit)

/-- An observable effect of one listener invocation: a `console.error`
emission or a write-and-terminate on the outgoing response. -/
inductive Effect where
  | logError (f : Fault)
  | write (w : WrittenResponse)
deriving DecidableEq, Repr

/-- JS truthiness of a possibly-missing string field: `undefined` and the
empty string are falsy. -/
def truthy : Option String → Bool
  | none => false
  | some s => !s.isEmpty

/-- One subscription of the `body()` accessor: accumulate data chunks, in
arrival order, into one string and resolve at the first end event; with no end
event the promise never settles (`none`). -/
def drainFrom : List StreamEvent → Option String
  | [] => none
  | StreamEvent.endEv :: _ => some ""
  | StreamEvent.chunk c :: rest => (drainFrom rest).map (fun b => c ++ b)

/-- Events still available to a later subscriber after one `body()`
invocation: everything up to and including the first end event has been
consumed by the earlier subscription. -/
def afterInvoke : List StreamEvent → List StreamEvent
  | [] => []
  | StreamEvent.endEv :: rest => rest
  | StreamEvent.chunk _ :: rest => afterInvoke rest

/-- Results of `k` successive `body()` invocations on a stream: each call
builds a fresh promise over the events still available (the source constructs
`new Promise` and re-subscribes on every call). -/
def invokeResults : List StreamEvent → Nat → List (Option String)
  | _, 0 => []
  | s, Nat.succ k => drainFrom s :: invokeResults (afterInvoke s) k

/-- How many of `k` successive `body()` invocations fully drained the stream
(i.e. resolved). -/
def drainCount (s : List StreamEvent) (k : Nat) : Nat :=
  (invokeResults s k).countP fun r => r.isSome

/-- A complete inbound body stream: some data chunks followed by exactly one
end event. -/
def wellFormedStream (s : List StreamEvent) : Prop :=
  ∃ chunks : List String, s = chunks.map StreamEvent.chunk ++ [StreamEvent.endEv]

/-- Concatenation of chunks in arrival order (`body += chunk`). -/
def concatChunks : List String → String
  | [] => ""
  | c :: cs => c ++ concatChunks cs

/-- Lower-case hex digit, as produced by JSON.stringify escapes. -/
def hexDigit (n : Nat) : Char :=
  if n < 10 then Char.ofNat (48 + n) else Char.ofNat (87 + n)

/-- JSON.stringify escaping of one character. -/
def jsonEscapeChar (c : Char) : String :=
  if c = '"' then "\\\""
  else if c = '\\' then "\\\\"
  else if c = '\n' then "\\n"
  else if c = '\r' then "\\r"
  else if c = '\t' then "\\t"
  else if c.toNat = 8 then "\\b"
  else if c.toNat = 12 then "\\f"
  else if c.toNat < 32 then
    "\\u00" ++ String.mk [hexDigit (c.toNat / 16), hexDigit (c.toNat % 16)]
  else String.mk [c]

/-- JSON.stringify of a string value. -/
def jsonString (s : String) : String :=
  "\"" ++ String.join (s.data.map jsonEscapeChar) ++ "\""

/-- The serialized element placed in the errors array: for an Error,
`\x7b"message": …, "stack": …\x7d` (the stack key dropped when the stack is
undefined, as JSON.stringify drops undefined properties); otherwise the raw
value's own serialization. -/
def faultJson : Fault → String
  | Fault.jsError message stack =>
    "\x7b\"message\":" ++ jsonString message ++
      (match stack with
        | some st => ",\"stack\":" ++ jsonString st
        | none => "") ++ "\x7d"
  | Fault.jsValue s => s

/-- `JSON.stringify(\x7b errors: [err …] \x7d)` from the catch branch. -/
def errorsEnvelope (f : Fault) : String :=
  "\x7b\"errors\":[" ++ faultJson f ++ "]\x7d"

/-- The fallback response written in the catch branch: in production a bare
`writeHead(500).end()`; otherwise status 500 with the JSON content type and
the serialized errors envelope. -/
def errorResponse (isProd : Bool) (f : Fault) : WrittenResponse :=
  if isProd then
    { status := 500, statusText := none, headers := none, body := none }
  else
    { status := 500, statusText := none,
      headers := some [("content-type", "application/json; charset=utf-8")],
      body := some (errorsEnvelope f) }

/-- The request descriptor object literal passed to `handle` (only built once
`req.url` and `req.method` are known present): headers and the body stream are
taken from the request untouched, `raw` is the request itself, and `context`
is `undefined`. -/
def mkDescriptor (Ctx : Type) (u m : String) (req : Req) : NormReq Ctx :=
  { url := u, method := m, headers := req.headers,
    bodyEvents := req.bodyEvents, raw := req, context := none }

/-- The `try` block of the listener: validate `req.url` then `req.method`
(throwing `new Error('Missing request …')` with a runtime-generated stack when
falsy), invoke the handler, and on success describe the
`writeHead(init.status, init.statusText, init.headers).end(body)` call.  A
handler fault propagates to the catch. -/
def tryBlock {Ctx : Type} (handle : HandlerFn Ctx)
    (urlStack methodStack : Option String) (req : Req) :
    Except Fault WrittenResponse :=
  match req.url with
  | none => Except.error (Fault.jsError "Missing request URL" urlStack)
  | some u =>
    if u.isEmpty then Except.error (Fault.jsError "Missing request URL" urlStack)
    else
      match req.method with
      | none => Except.error (Fault.jsError "Missing request method" methodStack)
      | some m =>
        if m.isEmpty then
          Except.error (Fault.jsError "Missing request method" methodStack)
        else
          match handle (mkDescriptor Ctx u m req) with
          | Except.error f => Except.error f
          | Except.ok (body, init) =>
            Except.ok { status := init.status, statusText := init.statusText,
                        headers := init.headers, body := some body }

/-- One invocation of the returned `requestListener`: run the try block; on
success perform its single write; on any caught fault log once via
`console.error` and write the fallback response.  The invocation always
completes with a written response — the promise never rejects. -/
def requestListenerCore {Ctx : Type} (isProd : Bool) (handle : HandlerFn Ctx)
    (urlStack methodStack : Option String) (req : Req) : List Effect :=
  match tryBlock handle urlStack methodStack req with
  | Except.ok w => [Effect.write w]
  | Except.error f => [Effect.logError f, Effect.write (errorResponse isProd f)]

/-- A snapshot of `process.env`. -/
abbrev Env : Type := String → Option String

/-- `createHandler`: capture `process.env.NODE_ENV === 'production'` at
construction time and return the listener.  The returned listener is given
the environment as it stands at call time, which the source listener never
reads. -/
def createHandler {Ctx : Type} (envAtCreation : Env) (handle : HandlerFn Ctx)
    (urlStack methodStack : Option String) : Env → Req → List Effect :=
  let isProd := envAtCreation "NODE_ENV" == some "production"
  fun _envAtCall req => requestListenerCore isProd handle urlStack methodStack req

/-- The response writes among an invocation's effects, in order. -/
def writesOf (es : List Effect) : List WrittenResponse :=
  es.filterMap fun e =>
    match e with
    | Effect.write w => some w
    | Effect.logError _ => none

/-- The number of `console.error` emissions among an invocation's effects. -/
def logsOf (es : List Effect) : Nat :=
  (es.filter fun e =>
    match e with
    | Effect.logError _ => true
    | Effect.write _ => false).length

/-! ### Concrete instances used by witnesses -/

/-- A handler that resolves with a fixed GraphQL success payload. -/
def exHandlerOk : HandlerFn Unit := fun _ =>
  Except.ok ("\x7b\"data\":\x7b\"__typename\":\"Query\"\x7d\x7d",
    { status := 200, statusText := none,
      headers := some [("content-type", "application/json")] })

/-- A handler that rejects with an Error value. -/
def exHandlerFault : HandlerFn Unit := fun _ =>
  Except.error (Fault.jsError "boom" (some "stack"))

/-- A well-formed POST request carrying a small GraphQL query body. -/
def exReq : Req :=
  { url := some "/graphql", method := some "POST",
    headers := [("content-type", "application/json")],
    bodyEvents := [StreamEvent.chunk "\x7b\"query\":\"\x7b__typename\x7d\"\x7d",
                   StreamEvent.endEv] }

/-- A two-chunk body stream used for the body-accessor statements. -/
def exStream : List StreamEvent :=
  [StreamEvent.chunk "a", StreamEvent.chunk "b", StreamEvent.endEv]

/-! ### Helper lemmas -/

/-- A resolving subscription on a complete stream yields the chunks
concatenated in arrival order. -/
theorem drainFrom_wellFormed (chunks : List String) :
    drainFrom (chunks.map StreamEvent.chunk ++ [StreamEvent.endEv]) =
      some (concatChunks chunks) := by
  induction chunks with
  | nil => rfl
  | cons c cs ih => simp [drainFrom, concatChunks, ih]

/-- A resolving subscription on a complete stream consumes it entirely. -/
theorem afterInvoke_wellFormed (chunks : List String) :
    afterInvoke (chunks.map StreamEvent.chunk ++ [StreamEvent.endEv]) = [] := by
  induction chunks with
  | nil => rfl
  | cons c cs ih => simpa [afterInvoke] using ih

/-- Every subscription to an exhausted stream stays pending forever. -/
theorem invokeResults_nil (k : Nat) :
    invokeResults [] k = List.replicate k (none : Option String) := by
  induction k with
  | zero => rfl
  | succ k ih => simp [invokeResults, drainFrom, afterInvoke, ih, List.replicate_succ]

/-- On a complete stream, the first `body()` invocation resolves with the
concatenated chunks and every later invocation stays pending. -/
theorem invokeResults_wellFormed (chunks : List String) (k : Nat) :
    invokeResults (chunks.map StreamEvent.chunk ++ [StreamEvent.endEv]) (k + 1) =
      some (concatChunks chunks) :: List.replicate k none := by
  simp [invokeResults, drainFrom_wellFormed, afterInvoke_wellFormed, invokeResults_nil]

/-- Pending results are not drains. -/
theorem countP_isSome_replicate_none (k : Nat) :
    (List.replicate k (none : Option String)).countP (fun r => r.isSome) = 0 := by
  induction k with
  | zero => rfl
  | succ k ih => simp [List.replicate_succ, List.countP_cons, ih]

/-- Both fallback responses carry status 500. -/
theorem errorResponse_status (isProd : Bool) (f : Fault) :
    (errorResponse isProd f).status = 500 := by
  cases isProd <;> rfl

/-- When the URL or the method is falsy the try block fails, without consulting
the handler, with the corresponding `Missing request …` error. -/
theorem tryBlock_missing {Ctx : Type} (handle : HandlerFn Ctx)
    (uS mS : Option String) (req : Req)
    (hmiss : truthy req.url = false ∨ truthy req.method = false) :
    tryBlock handle uS mS req =
      Except.error (if truthy req.url then Fault.jsError "Missing request method" mS
                    else Fault.jsError "Missing request URL" uS) := by
  obtain ⟨url, method, hdrs, ev⟩ := req
  rcases url with _ | u
  · simp [tryBlock, truthy]
  · rcases method with _ | m
    · cases he : u.isEmpty <;> simp [tryBlock, truthy, he]
    · cases he : u.isEmpty <;> cases hem : m.isEmpty
      · exact absurd hmiss (by simp [truthy, he, hem])
      · simp [tryBlock, truthy, he, hem]
      · simp [tryBlock, truthy, he, hem]
      · simp [tryBlock, truthy, he, hem]

/-! ### Claims -/

/-- C1: for every inbound request with a non-empty URL and a non-empty method,
and every handler invocation resolving with `(body, init)`, the listener
performs exactly the write `writeHead(init.status, init.statusText,
init.headers).end(body)`. -/
theorem success_response_matches_handler {Ctx : Type} (isProd : Bool)
    (handle : HandlerFn Ctx) (uS mS : Option String) (req : Req)
    (u m body : String) (init : ResponseInit)
    (hu : req.url = some u) (hune : u.isEmpty = false)
    (hm : req.method = some m) (hmne : m.isEmpty = false)
    (hok : handle (mkDescriptor Ctx u m req) = Except.ok (body, init)) :
    requestListenerCore isProd handle uS mS req =
      [Effect.write { status := init.status, statusText := init.statusText,
                      headers := init.headers, body := some body }] := by
  simp [requestListenerCore, tryBlock, hu, hm, hune, hmne, hok]

/-- C1 witness: the success path at a concrete request and handler. -/
theorem success_response_matches_handler_inst :
    requestListenerCore false exHandlerOk none none exReq =
      [Effect.write { status := 200, statusText := none,
                      headers := some [("content-type", "application/json")],
                      body := some "\x7b\"data\":\x7b\"__typename\":\"Query\"\x7d\x7d" }] :=
  success_response_matches_handler false exHandlerOk none none exReq
    "/graphql" "POST" "\x7b\"data\":\x7b\"__typename\":\"Query\"\x7d\x7d"
    { status := 200, statusText := none,
      headers := some [("content-type", "application/json")] }
    rfl rfl rfl rfl rfl

/-- C2: for every request and every handler behaviour — resolving or failing
with any fault — the listener invocation completes with exactly one written
response; every fault is converted into a write and none escapes. -/
theorem listener_never_rejects {Ctx : Type} (isProd : Bool) (handle : HandlerFn Ctx)
    (uS mS : Option String) (req : Req) :
    ∃ w : WrittenResponse,
      writesOf (requestListenerCore isProd handle uS mS req) = [w] := by
  cases h : tryBlock handle uS mS req with
  | ok w => exact ⟨w, by simp [requestListenerCore, h, writesOf]⟩
  | error f => exact ⟨errorResponse isProd f, by simp [requestListenerCore, h, writesOf]⟩

/-- C3 counterexample: on the stream `"a", "b", end`, the first `body()`
invocation resolves with `"ab"` but the second never resolves — the results
are not the memoized pair `[some "ab", some "ab"]` the claim predicts. -/
theorem body_second_call_never_resolves :
    invokeResults exStream 2 = [some "ab", none] ∧
      ¬ invokeResults exStream 2 = [some "ab", some "ab"] := by
  constructor
  · decide
  · decide

/-- C3 (amended): on a complete stream, `body()` resolves on its first
invocation with the exact concatenation of the chunks in arrival order, but it
is not memoized — each invocation re-subscribes, and every invocation after
the first never resolves. -/
theorem body_concat_first_call_only (chunks : List String) (k : Nat) :
    invokeResults (chunks.map StreamEvent.chunk ++ [StreamEvent.endEv]) (k + 1) =
      some (concatChunks chunks) :: List.replicate k none :=
  invokeResults_wellFormed chunks k

/-- C4: when the method or the URL is missing (absent or empty), the handler
is never consulted — the outcome is the same for any two handlers — and the
single written response has status 500. -/
theorem missing_field_skips_handler_500 {Ctx : Type} (isProd : Bool)
    (h1 h2 : HandlerFn Ctx) (uS mS : Option String) (req : Req)
    (hmiss : truthy req.url = false ∨ truthy req.method = false) :
    requestListenerCore isProd h1 uS mS req = requestListenerCore isProd h2 uS mS req ∧
      ∃ w : WrittenResponse,
        writesOf (requestListenerCore isProd h1 uS mS req) = [w] ∧ w.status = 500 := by
  have e1 := tryBlock_missing h1 uS mS req hmiss
  have e2 := tryBlock_missing h2 uS mS req hmiss
  refine ⟨by rw [requestListenerCore, requestListenerCore, e1, e2], ?_⟩
  refine ⟨errorResponse isProd
    (if truthy req.url then Fault.jsError "Missing request method" mS
     else Fault.jsError "Missing request URL" uS), ?_, errorResponse_status ..⟩
  rw [requestListenerCore, e1]
  simp [writesOf]

/-- C4 witness: a request whose URL is the empty string yields the same
500-response for two different handlers. -/
theorem missing_field_skips_handler_500_inst :
    (requestListenerCore true exHandlerOk none none
        { url := some "", method := some "POST", headers := [], bodyEvents := [] } =
      requestListenerCore true exHandlerFault none none
        { url := some "", method := some "POST", headers := [], bodyEvents := [] }) ∧
    ∃ w : WrittenResponse,
      writesOf (requestListenerCore true exHandlerOk none none
        { url := some "", method := some "POST", headers := [], bodyEvents := [] }) = [w] ∧
      w.status = 500 :=
  missing_field_skips_handler_500 true exHandlerOk exHandlerFault none none
    { url := some "", method := some "POST", headers := [], bodyEvents := [] }
    (Or.inl (by decide))

/-- C5: in non-production mode, any handler fault produces the log followed by
a write of status 500, the `content-type: application/json; charset=utf-8`
header, and the JSON body `\x7b"errors":[payload]\x7d`, where payload is
`\x7b"message": err.message, "stack": err.stack\x7d` for an Error and the raw
value's serialization otherwise. -/
theorem dev_fault_json_500 {Ctx : Type} (handle : HandlerFn Ctx)
    (uS mS : Option String) (req : Req) (u m : String) (f : Fault)
    (hu : req.url = some u) (hune : u.isEmpty = false)
    (hm : req.method = some m) (hmne : m.isEmpty = false)
    (hf : handle (mkDescriptor Ctx u m req) = Except.error f) :
    requestListenerCore false handle uS mS req =
      [Effect.logError f,
       Effect.write
         { status := 500, statusText := none,
           headers := some [("content-type", "application/json; charset=utf-8")],
           body := some ("\x7b\"errors\":[" ++
             (match f with
              | Fault.jsError message stack =>
                "\x7b\"message\":" ++ jsonString message ++
                  (match stack with
                   | some st => ",\"stack\":" ++ jsonString st
                   | none => "") ++ "\x7d"
              | Fault.jsValue s => s) ++ "]\x7d") }] := by
  have hb : tryBlock handle uS mS req = Except.error f := by
    simp [tryBlock, hu, hm, hune, hmne, hf]
  rw [requestListenerCore, hb]
  cases f with
  | jsError message stack =>
    cases stack <;> simp [errorResponse, errorsEnvelope, faultJson]
  | jsValue s => simp [errorResponse, errorsEnvelope, faultJson]

/-- C5 witness: a handler rejecting with `Error("boom")` (stack `"stack"`)
yields the exact serialized diagnostic response. -/
theorem dev_fault_json_500_inst :
    requestListenerCore false exHandlerFault none none exReq =
      [Effect.logError (Fault.jsError "boom" (some "stack")),
       Effect.write
         { status := 500, statusText := none,
           headers := some [("content-type", "application/json; charset=utf-8")],
           body := some
             "\x7b\"errors\":[\x7b\"message\":\"boom\",\"stack\":\"stack\"\x7d]\x7d" }] := by
  rw [dev_fault_json_500 exHandlerFault none none exReq "/graphql" "POST"
    (Fault.jsError "boom" (some "stack")) rfl rfl rfl rfl rfl]
  decide

/-- C6: in production mode, every caught fault — missing field, handler
rejection, or any other — produces the bare write `writeHead(500).end()`:
status 500, no status text, no headers, no body. -/
theorem prod_fault_bare_500 {Ctx : Type} (handle : HandlerFn Ctx)
    (uS mS : Option String) (req : Req) (f : Fault)
    (hf : tryBlock handle uS mS req = Except.error f) :
    requestListenerCore true handle uS mS req =
      [Effect.logError f,
       Effect.write { status := 500, statusText := none,
                      headers := none, body := none }] := by
  rw [requestListenerCore, hf]
  rfl

/-- C6 witness: the bare production 500 at a request with a missing URL. -/
theorem prod_fault_bare_500_inst :
    requestListenerCore true exHandlerOk none none
        { url := none, method := some "POST", headers := [], bodyEvents := [] } =
      [Effect.logError (Fault.jsError "Missing request URL" none),
       Effect.write { status := 500, statusText := none,
                      headers := none, body := none }] :=
  prod_fault_bare_500 exHandlerOk none none
    { url := none, method := some "POST", headers := [], bodyEvents := [] }
    (Fault.jsError "Missing request URL" none) rfl

/-- C7: every invocation performs exactly one write-and-terminate call, emits
exactly one diagnostic log on failure and none on success, and a complete body
stream is fully drained at most once however many times `body()` is called. -/
theorem one_write_one_log_one_drain {Ctx : Type} (isProd : Bool)
    (handle : HandlerFn Ctx) (uS mS : Option String) (req : Req)
    (s : List StreamEvent) (k : Nat) :
    (writesOf (requestListenerCore isProd handle uS mS req)).length = 1 ∧
    logsOf (requestListenerCore isProd handle uS mS req) =
      (match tryBlock handle uS mS req with
       | Except.ok _ => 0
       | Except.error _ => 1) ∧
    (wellFormedStream s → drainCount s k ≤ 1) := by
  refine ⟨?_, ?_, ?_⟩
  · cases h : tryBlock handle uS mS req <;> simp [requestListenerCore, h, writesOf]
  · cases h : tryBlock handle uS mS req <;> simp [requestListenerCore, h, logsOf]
  · rintro ⟨chunks, rfl⟩
    cases k with
    | zero => simp [drainCount, invokeResults]
    | succ k =>
      rw [drainCount, invokeResults_wellFormed]
      simp [List.countP_cons, countP_isSome_replicate_none]

/-- C7 witness: the effect counts at a concrete successful invocation and a
concrete stream probed three times. -/
theorem one_write_one_log_one_drain_inst :
    (writesOf (requestListenerCore false exHandlerOk none none exReq)).length = 1 ∧
    logsOf (requestListenerCore false exHandlerOk none none exReq) = 0 ∧
    drainCount exStream 3 ≤ 1 := by
  obtain ⟨h1, h2, h3⟩ :=
    one_write_one_log_one_drain false exHandlerOk none none exReq exStream 3
  refine ⟨h1, ?_, h3 ⟨["a", "b"], rfl⟩⟩
  rw [h2]
  decide

/-- C8: building the descriptor leaves the body stream untouched (no
subscription, no accumulation); with zero `body()` invocations nothing is
drained, and a single invocation drains the full body exactly then. -/
theorem descriptor_build_no_drain (Ctx : Type) (u m : String) (req : Req) :
    (mkDescriptor Ctx u m req).bodyEvents = req.bodyEvents ∧
    drainCount req.bodyEvents 0 = 0 ∧
    ∀ chunks : List String,
      invokeResults (chunks.map StreamEvent.chunk ++ [StreamEvent.endEv]) 1 =
        [some (concatChunks chunks)] :=
  ⟨rfl, rfl, fun chunks => by simpa using invokeResults_wellFormed chunks 0⟩

/-- C9: the descriptor handed to the handler always has `context = none`
(`undefined`), whatever the `Ctx` type parameter; consequently two handlers
that agree on context-free descriptors make the listener behave identically —
no caller-supplied context ever reaches the handler. -/
theorem context_never_supplied {Ctx : Type} (isProd : Bool)
    (h1 h2 : HandlerFn Ctx) (uS mS : Option String) (req : Req) (u m : String)
    (hagree : ∀ d : NormReq Ctx, d.context = none → h1 d = h2 d) :
    (mkDescriptor Ctx u m req).context = none ∧
    requestListenerCore isProd h1 uS mS req =
      requestListenerCore isProd h2 uS mS req := by
  refine ⟨rfl, ?_⟩
  have hb : tryBlock h1 uS mS req = tryBlock h2 uS mS req := by
    obtain ⟨url, method, hdrs, ev⟩ := req
    rcases url with _ | u'
    · rfl
    · rcases method with _ | m'
      · rfl
      · cases he : u'.isEmpty <;> cases hem : m'.isEmpty <;>
          simp [tryBlock, he, hem,
            hagree (mkDescriptor Ctx u' m' ⟨some u', some m', hdrs, ev⟩) rfl]
  rw [requestListenerCore, requestListenerCore, hb]

/-- C9 witness: context is `none` at a concrete descriptor, and the listener
agrees for a pair of handlers that agree on context-free descriptors. -/
theorem context_never_supplied_inst :
    (mkDescriptor Unit "/graphql" "POST" exReq).context = none ∧
    requestListenerCore false exHandlerOk none none exReq =
      requestListenerCore false (fun d => exHandlerOk d) none none exReq :=
  context_never_supplied false exHandlerOk (fun d => exHandlerOk d) none none exReq
    "/graphql" "POST" (fun _ _ => rfl)

/-- C10: `process.env.NODE_ENV === 'production'` is read once at
`createHandler` time; the returned listener ignores the environment at call
time, so a later environment change never alters its behaviour, and it always
runs with the boolean captured at construction. -/
theorem env_captured_at_creation {Ctx : Type} (envAtCreation : Env)
    (handle : HandlerFn Ctx) (uS mS : Option String)
    (env1 env2 : Env) (req : Req) :
    createHandler envAtCreation handle uS mS env1 req =
      createHandler envAtCreation handle uS mS env2 req ∧
    createHandler envAtCreation handle uS mS env1 req =
      requestListenerCore (envAtCreation "NODE_ENV" == some "production")
        handle uS mS req :=
  ⟨rfl, rfl⟩

end GraphqlHttpNode
